import Mathlib

/-!
Verification development for the Landsraad coordination bot
(`landsraad_bot_enhanced.py`).  The database tables (`houses`,
`deep_desert_sectors`, the four point-of-interest tables, `reset_log`)
are modelled as Lean lists of records; each SQL statement of the source
becomes an explicit list transformation.  SQL `LOWER` and Python case
mapping are modelled by ASCII case functions (all strings in play are
ASCII), timestamps by a `Nat` parameter `now`, and Python exceptions by
`Option`/`Except` results.
-/

namespace Landsraad

/-- Alliance constant `ATREIDES` (source line 30). -/
def ATREIDES : String := "Atreides"

/-- Alliance constant `HARKONNEN` (source line 31). -/
def HARKONNEN : String := "Harkonnen"

/-- `GOAL_AMOUNT` (source line 26). -/
def GOAL_AMOUNT : Int := 70000

/-- One row of the `houses` table (schema at source lines 163-180). -/
structure House where
  name : String
  quest : String
  current_goal : Int
  goal : Int
  points_per_delivery : Int
  is_locked : Bool
  completed_by : Option String
  notes : Option String
  desert_location : Option String
  alliance : Option String
  deep_desert_cp : Int
  last_updated : Nat
  updated_by : String
deriving DecidableEq, Repr

/-- One row of the `reset_log` table (schema at source lines 193-201). -/
structure ResetLogEntry where
  reset_by : String
  houses_reset : Int
  houses_completed : Int
deriving DecidableEq, Repr

/-- The slice of database state touched by the weekly reset. -/
structure DBState where
  houses : List House
  reset_log : List ResetLogEntry
deriving DecidableEq, Repr

/-- ASCII lower-casing: exactly what SQLite's `LOWER()` computes, and
what Python's `str.lower()` computes on the ASCII strings in play. -/
def asciiLower (s : String) : String :=
  ⟨s.data.map fun c => if 'A' ≤ c ∧ c ≤ 'Z' then Char.ofNat (c.toNat + 32) else c⟩

/-- ASCII upper-casing (Python `str.upper()` on the ASCII inputs in play). -/
def asciiUpper (s : String) : String :=
  ⟨s.data.map fun c => if 'a' ≤ c ∧ c ≤ 'z' then Char.ofNat (c.toNat - 32) else c⟩

/-- The whitespace characters stripped by Python's `str.strip()` that can
occur in the inputs in play. -/
def isPySpace (c : Char) : Bool :=
  c == ' ' || c == '\t' || c == '\n' || c == '\r'

/-- Python `str.strip()`: drop whitespace from both ends. -/
def pyStrip (s : String) : String :=
  ⟨((s.data.dropWhile isPySpace).reverse.dropWhile isPySpace).reverse⟩

/-- Row matching used by every `WHERE LOWER(name) = LOWER(?)` clause. -/
def nameMatches (h : House) (house_name : String) : Bool :=
  asciiLower h.name == asciiLower house_name

/-- `claim_house_for_alliance` (source lines 493-515): a single UPDATE
setting `alliance`, `last_updated` and `updated_by` on every row whose
lowercased name matches. -/
def claim_house_for_alliance (houses : List House) (house_name : String)
    (alliance : Option String) (claimed_by : String) (now : Nat) : List House :=
  houses.map fun h =>
    if nameMatches h house_name then
      { h with alliance := alliance, last_updated := now, updated_by := claimed_by }
    else h

/-- Whether `claim_house_for_alliance` reports success (`cursor.rowcount > 0`). -/
def claim_house_success (houses : List House) (house_name : String) : Bool :=
  houses.any fun h => nameMatches h house_name

/-- The per-house effect of the weekly-reset UPDATE
(`ConfirmResetView.confirm_reset`, source lines 2183-2194). -/
def resetHouse (user : String) (now : Nat) (h : House) : House :=
  { h with is_locked := true, current_goal := 0, quest := "Unknown",
           desert_location := none, completed_by := none, alliance := none,
           deep_desert_cp := 0, last_updated := now, updated_by := user }

/-- `ConfirmResetView.confirm_reset` (source lines 2173-2203): count the
rows with `alliance IS NOT NULL`, reset every house row, then append one
`reset_log` row recording `houses_reset = 25` and the captured count. -/
def confirm_reset (st : DBState) (user : String) (now : Nat) : DBState :=
  let claimed_count := (st.houses.filter fun h => h.alliance.isSome).length
  { houses := st.houses.map (resetHouse user now),
    reset_log := st.reset_log ++
      [{ reset_by := user, houses_reset := 25, houses_completed := claimed_count }] }

/-- Count of houses whose alliance lies in the closed two-member set
`{Atreides, Harkonnen}`.  This follows the SPEC words ("the pre-reset
count of houses with alliance in {Atreides, Harkonnen}") and exists to
be compared against the count the code actually logs. -/
def spec_claimed_valid_count (houses : List House) : Nat :=
  (houses.filter fun h =>
    h.alliance == some ATREIDES || h.alliance == some HARKONNEN).length

/-- A house row used for concrete counterexample states. -/
def sampleHouse (name : String) : House :=
  { name := name, quest := "Unknown", current_goal := 0, goal := 70000,
    points_per_delivery := 1, is_locked := true, completed_by := none,
    notes := none, desert_location := none, alliance := none,
    deep_desert_cp := 0, last_updated := 0, updated_by := "System" }

end Landsraad

namespace Landsraad

/-- All fields of a house other than `alliance`, `last_updated` and
`updated_by`, bundled for frame statements. -/
def houseFrame (h : House) :
    String × String × Int × Int × Int × Bool × Option String × Option String ×
      Option String × Int :=
  (h.name, h.quest, h.current_goal, h.goal, h.points_per_delivery, h.is_locked,
   h.completed_by, h.notes, h.desert_location, h.deep_desert_cp)

/-- C3: claiming touches only `alliance` plus the audit stamps — every
other field of every row is preserved — and the sequence
claim Atreides, claim Harkonnen, claim none leaves `alliance` empty on
the matched rows and `completed_by` exactly as before the sequence. -/
theorem claim_only_sets_alliance (hs : List House) (n : String)
    (a : Option String) (u u1 u2 u3 : String) (t t1 t2 t3 : Nat) :
    ((claim_house_for_alliance hs n a u t).map houseFrame = hs.map houseFrame)
    ∧
    (let r := claim_house_for_alliance
        (claim_house_for_alliance
          (claim_house_for_alliance hs n (some ATREIDES) u1 t1)
          n (some HARKONNEN) u2 t2)
        n none u3 t3
     r.map House.completed_by = hs.map House.completed_by
       ∧ r.all (fun h => !(nameMatches h n) || h.alliance == none) = true) := by
  refine ⟨?_, ?_, ?_⟩
  · simp only [claim_house_for_alliance, List.map_map]
    apply List.map_congr_left
    intro h _
    by_cases hm : nameMatches h n = true <;> simp [hm, houseFrame]
  · simp only [claim_house_for_alliance, List.map_map]
    apply List.map_congr_left
    intro h _
    by_cases hm : nameMatches h n = true <;> simp [hm, nameMatches] at *
      <;> simp [hm]
  · simp only [claim_house_for_alliance, List.all_eq_true, List.mem_map]
    rintro x ⟨y, ⟨z, ⟨w, hw, rfl⟩, rfl⟩, rfl⟩
    by_cases hm : nameMatches w n = true
    · simp [hm, nameMatches] at *
      simp [hm]
    · simp [nameMatches] at hm
      simp [hm, nameMatches]

end Landsraad

namespace Landsraad

/-- C1 counterexample: a pre-state holding one house whose alliance is
the corrupted value "Bob".  The reset logs `houses_completed = 1` (it
counts every non-null alliance), while the count of houses with alliance
in {Atreides, Harkonnen} is 0. -/
theorem weekly_reset_completed_count_counterexample :
    (confirm_reset
        { houses := [{ sampleHouse "Alexin" with alliance := some "Bob" }],
          reset_log := [] } "admin" 7).reset_log
      = [{ reset_by := "admin", houses_reset := 25, houses_completed := 1 }]
    ∧ spec_claimed_valid_count
        [{ sampleHouse "Alexin" with alliance := some "Bob" }] = 0 := by
  constructor <;> rfl

/-- C1 (amended): the weekly reset sets every house row to
locked, progress 0, quest "Unknown", cleared location / completed-by /
alliance, zero deep-desert CP, stamped with actor and time; it keeps the
roster (names, goals, row count) and appends exactly one reset-log row
whose `houses_completed` equals the pre-reset count of houses whose
alliance is non-null (of any value). -/
theorem weekly_reset_amended (st : DBState) (user : String) (now : Nat) :
    ((confirm_reset st user now).houses.length = st.houses.length)
    ∧ ((confirm_reset st user now).houses.all (fun h =>
        h.is_locked && h.current_goal == 0 && h.quest == "Unknown"
        && h.desert_location == none && h.completed_by == none
        && h.alliance == none && h.deep_desert_cp == 0
        && h.last_updated == now && h.updated_by == user) = true)
    ∧ ((confirm_reset st user now).reset_log = st.reset_log ++
        [{ reset_by := user, houses_reset := 25,
           houses_completed := (st.houses.filter fun h => h.alliance.isSome).length }])
    ∧ ((confirm_reset st user now).houses.map House.name = st.houses.map House.name)
    ∧ ((confirm_reset st user now).houses.map House.goal = st.houses.map House.goal) := by
  refine ⟨by simp [confirm_reset], ?_, by simp [confirm_reset], ?_, ?_⟩
  · simp only [confirm_reset, List.all_eq_true, List.mem_map]
    rintro x ⟨h, _, rfl⟩
    simp [resetHouse]
  · simp [confirm_reset, List.map_map]
    intro a _
    rfl
  · simp [confirm_reset, List.map_map]
    intro a _
    rfl

/-- The canonical roster of 25 house names (source lines 329-334). -/
def LANDSRAAD_HOUSES : List String :=
  ["Alexin", "Argosaz", "Dyvets", "Ecaz", "Hagal", "Hurata",
   "Imota", "Kenola", "Lindaren", "Maros", "Mikarrol", "Moritani", "Mutelli",
   "Novebruns", "Richese", "Sor", "Spinnette", "Taligari", "Thorvald",
   "Tseida", "Varota", "Vernius", "Wallach", "Wayku", "Wydras"]

/-- The row produced by `INSERT INTO houses (name) VALUES (?)`: every
other column takes its schema default (source lines 163-180). -/
def defaultHouse (name : String) (now : Nat) : House :=
  { name := name, quest := "Unknown", current_goal := 0, goal := 70000,
    points_per_delivery := 1, is_locked := true, completed_by := none,
    notes := none, desert_location := none, alliance := none,
    deep_desert_cp := 0, last_updated := now, updated_by := "System" }

/-- `INSERT OR IGNORE INTO houses (name) VALUES (?)` (source lines
343-346): append a default row unless a row with that exact name exists
(the `name` column is UNIQUE with binary collation). -/
def insertOrIgnoreHouse (now : Nat) (houses : List House) (name : String) :
    List House :=
  if houses.any (fun h => h.name == name) then houses
  else houses ++ [defaultHouse name now]

/-- `populate_initial_houses` (source lines 327-348): delete every row
whose name is not in the canonical roster, then insert-or-ignore each of
the 25 canonical names in order. -/
def populate_initial_houses (houses : List House) (now : Nat) : List House :=
  (LANDSRAAD_HOUSES.foldl (insertOrIgnoreHouse now)
    (houses.filter fun h => LANDSRAAD_HOUSES.contains h.name))

theorem mem_names_insertOrIgnore (now : Nat) (hs : List House) (n x : String) :
    x ∈ (insertOrIgnoreHouse now hs n).map House.name
      ↔ x ∈ hs.map House.name ∨ x = n := by
  unfold insertOrIgnoreHouse
  by_cases hp : hs.any (fun h => h.name == n) = true
  · simp only [hp, if_true]
    constructor
    · exact Or.inl
    · rintro (hx | rfl)
      · exact hx
      · simp only [List.any_eq_true, beq_iff_eq] at hp
        obtain ⟨h, hh, rfl⟩ := hp
        exact List.mem_map.mpr ⟨h, hh, rfl⟩
  · simp [hp, defaultHouse]

theorem names_foldl_insert (now : Nat) (l : List String) (hs : List House)
    (x : String) :
    x ∈ (l.foldl (insertOrIgnoreHouse now) hs).map House.name
      ↔ x ∈ hs.map House.name ∨ x ∈ l := by
  induction l generalizing hs with
  | nil => simp
  | cons n l ih =>
    simp only [List.foldl_cons, ih, mem_names_insertOrIgnore, List.mem_cons]
    tauto

theorem nodup_insertOrIgnore (now : Nat) (hs : List House) (n : String)
    (hnd : (hs.map House.name).Nodup) :
    ((insertOrIgnoreHouse now hs n).map House.name).Nodup := by
  unfold insertOrIgnoreHouse
  by_cases hp : hs.any (fun h => h.name == n) = true
  · rwa [if_pos hp]
  · rw [if_neg hp]
    simp only [List.map_append, List.map_cons, List.map_nil]
    rw [List.nodup_append]
    refine ⟨hnd, List.nodup_singleton _, ?_⟩
    intro y hy
    simp only [List.any_eq_true, beq_iff_eq] at hp
    push_neg at hp
    simp only [List.mem_map] at hy
    obtain ⟨h, hh, rfl⟩ := hy
    simp [defaultHouse]
    intro rfl1
    exact hp h hh rfl1

theorem nodup_foldl_insert (now : Nat) (l : List String) (hs : List House)
    (hnd : (hs.map House.name).Nodup) :
    ((l.foldl (insertOrIgnoreHouse now) hs).map House.name).Nodup := by
  induction l generalizing hs with
  | nil => exact hnd
  | cons n l ih => exact ih _ (nodup_insertOrIgnore now hs n hnd)

theorem prefix_insertOrIgnore (now : Nat) (hs : List House) (n : String) :
    hs <+: insertOrIgnoreHouse now hs n := by
  unfold insertOrIgnoreHouse
  by_cases hp : hs.any (fun h => h.name == n) = true
  · simp [hp]
  · simp only [hp, if_false]
    exact List.prefix_append _ _

theorem prefix_foldl_insert (now : Nat) (l : List String) (hs : List House) :
    hs <+: l.foldl (insertOrIgnoreHouse now) hs := by
  induction l generalizing hs with
  | nil => exact List.prefix_refl _
  | cons n l ih =>
    exact List.IsPrefix.trans (prefix_insertOrIgnore now hs n) (ih _)

theorem foldl_insert_noop (now : Nat) (l : List String) (hs : List House)
    (hall : ∀ n ∈ l, n ∈ hs.map House.name) :
    l.foldl (insertOrIgnoreHouse now) hs = hs := by
  induction l with
  | nil => rfl
  | cons n l ih =>
    have hn : hs.any (fun h => h.name == n) = true := by
      simp only [List.any_eq_true, beq_iff_eq]
      have := hall n (List.mem_cons_self _ _)
      simp only [List.mem_map] at this
      obtain ⟨h, hh, rfl⟩ := this
      exact ⟨h, hh, rfl⟩
    simp only [List.foldl_cons, insertOrIgnoreHouse, hn, if_true]
    exact ih fun m hm => hall m (List.mem_cons_of_mem _ hm)

end Landsraad

namespace Landsraad

theorem landsraad_houses_nodup : LANDSRAAD_HOUSES.Nodup := by decide

/-- C4: starting from any houses table with unique names (the UNIQUE
constraint on the `name` column), `populate_initial_houses` leaves a
table whose names are exactly the canonical roster: 25 rows, no
duplicates, every surviving canonical row untouched, and a second run
changes nothing. -/
theorem reconcile_roster_correct (hs : List House) (now now2 : Nat)
    (hnd : (hs.map House.name).Nodup) :
    (∀ x, x ∈ (populate_initial_houses hs now).map House.name
        ↔ x ∈ LANDSRAAD_HOUSES)
    ∧ (populate_initial_houses hs now).length = 25
    ∧ ((populate_initial_houses hs now).map House.name).Nodup
    ∧ (∀ h ∈ hs, LANDSRAAD_HOUSES.contains h.name = true →
        h ∈ populate_initial_houses hs now)
    ∧ populate_initial_houses (populate_initial_houses hs now) now2
        = populate_initial_houses hs now := by
  have hkept : ∀ x,
      x ∈ ((hs.filter fun h => LANDSRAAD_HOUSES.contains h.name).map House.name) →
        x ∈ LANDSRAAD_HOUSES := by
    intro x hx
    simp only [List.mem_map, List.mem_filter] at hx
    obtain ⟨h, ⟨_, hc⟩, rfl⟩ := hx
    exact List.elem_iff.mp hc
  have hmem : ∀ x, x ∈ (populate_initial_houses hs now).map House.name
      ↔ x ∈ LANDSRAAD_HOUSES := by
    intro x
    unfold populate_initial_houses
    rw [names_foldl_insert]
    constructor
    · rintro (hx | hx)
      · exact hkept x hx
      · exact hx
    · exact Or.inr
  have hnodup : ((populate_initial_houses hs now).map House.name).Nodup := by
    unfold populate_initial_houses
    refine nodup_foldl_insert now _ _ ?_
    exact List.Nodup.sublist
      (List.Sublist.map House.name (List.filter_sublist hs)) hnd
  refine ⟨hmem, ?_, hnodup, ?_, ?_⟩
  · have hperm : List.Perm ((populate_initial_houses hs now).map House.name)
        LANDSRAAD_HOUSES :=
      (List.perm_ext_iff_of_nodup hnodup landsraad_houses_nodup).mpr hmem
    have := hperm.length_eq
    simpa using this
  · intro h hh hc
    have hker : h ∈ hs.filter fun h => LANDSRAAD_HOUSES.contains h.name :=
      List.mem_filter.mpr ⟨hh, hc⟩
    exact (prefix_foldl_insert now LANDSRAAD_HOUSES _).subset hker
  · have hall : ∀ h ∈ populate_initial_houses hs now,
        LANDSRAAD_HOUSES.contains h.name = true := by
      intro h hh
      exact List.elem_iff.mpr ((hmem h.name).mp (List.mem_map_of_mem _ hh))
    show LANDSRAAD_HOUSES.foldl (insertOrIgnoreHouse now2)
        ((populate_initial_houses hs now).filter fun h =>
          LANDSRAAD_HOUSES.contains h.name)
      = populate_initial_houses hs now
    rw [List.filter_eq_self.mpr hall]
    exact foldl_insert_noop now2 _ _ fun n hn => (hmem n).mpr hn

end Landsraad

namespace Landsraad

/-- Witness for `reconcile_roster_correct` at a concrete one-row table. -/
theorem reconcile_roster_correct_witness :
    ([sampleHouse "Zed"].map House.name).Nodup ∧
    ((∀ x, x ∈ (populate_initial_houses [sampleHouse "Zed"] 1).map House.name
        ↔ x ∈ LANDSRAAD_HOUSES)
    ∧ (populate_initial_houses [sampleHouse "Zed"] 1).length = 25
    ∧ ((populate_initial_houses [sampleHouse "Zed"] 1).map House.name).Nodup
    ∧ (∀ h ∈ [sampleHouse "Zed"], LANDSRAAD_HOUSES.contains h.name = true →
        h ∈ populate_initial_houses [sampleHouse "Zed"] 1)
    ∧ populate_initial_houses (populate_initial_houses [sampleHouse "Zed"] 1) 2
        = populate_initial_houses [sampleHouse "Zed"] 1) :=
  ⟨by decide, reconcile_roster_correct [sampleHouse "Zed"] 1 2 (by decide)⟩

/-- `get_house_data` (source lines 350-358): the row whose lowercased
name matches, if any. -/
def get_house_data (houses : List House) (house_name : String) : Option House :=
  houses.find? fun h => nameMatches h house_name

/-- `update_house_data` (source lines 368-387) applied to the
whitelisted field `alliance`: one UPDATE setting the field plus the
`last_updated` / `updated_by` stamps on every matching row. -/
def update_house_alliance (houses : List House) (house_name : String)
    (value : Option String) (updated_by : String) (now : Nat) : List House :=
  houses.map fun h =>
    if nameMatches h house_name then
      { h with alliance := value, last_updated := now, updated_by := updated_by }
    else h

/-- `update_house_data` applied to the whitelisted field `quest`. -/
def update_house_quest (houses : List House) (house_name : String)
    (value : String) (updated_by : String) (now : Nat) : List House :=
  houses.map fun h =>
    if nameMatches h house_name then
      { h with quest := value, last_updated := now, updated_by := updated_by }
    else h

/-- `update_house_data` applied to the whitelisted field
`points_per_delivery`. -/
def update_house_ppd (houses : List House) (house_name : String)
    (value : Int) (updated_by : String) (now : Nat) : List House :=
  houses.map fun h =>
    if nameMatches h house_name then
      { h with points_per_delivery := value, last_updated := now,
               updated_by := updated_by }
    else h

/-- `update_house_data` applied to the whitelisted field `is_locked`. -/
def update_house_locked (houses : List House) (house_name : String)
    (value : Bool) (updated_by : String) (now : Nat) : List House :=
  houses.map fun h =>
    if nameMatches h house_name then
      { h with is_locked := value, last_updated := now, updated_by := updated_by }
    else h

/-- The invariant of the closed alliance vocabulary: absent, Atreides,
or Harkonnen. -/
def valid_alliance (a : Option String) : Bool :=
  a == none || a == some ATREIDES || a == some HARKONNEN

/-- `slash_claim_house` (source lines 2018-2060): normalise the faction
argument, reject it unless it is one of the four accepted spellings,
require the house to exist, then claim it for the corresponding constant. -/
def slash_claim_house (houses : List House) (house faction user : String)
    (now : Nat) : List House × Bool :=
  if !(["atreides", "harkonnen", "a", "h"].contains (asciiLower (pyStrip faction)))
  then (houses, false)
  else
    match get_house_data houses house with
    | none => (houses, false)
    | some _ =>
      (claim_house_for_alliance houses house
        (some (if ["atreides", "a"].contains (asciiLower (pyStrip faction))
               then ATREIDES else HARKONNEN)) user now,
       claim_house_success houses house)

/-- `slash_set_alliance` (source lines 2232-2268): require the house to
exist, normalise the alliance argument, then clear it or set one of the
two constants; anything else is rejected without mutation. -/
def slash_set_alliance (houses : List House) (house alliance user : String)
    (now : Nat) : List House × Bool :=
  match get_house_data houses house with
  | none => (houses, false)
  | some _ =>
    if ["none", "null", "clear", ""].contains (asciiLower (pyStrip alliance)) then
      (update_house_alliance houses house none user now, true)
    else if ["atreides", "a"].contains (asciiLower (pyStrip alliance)) then
      (update_house_alliance houses house (some ATREIDES) user now, true)
    else if ["harkonnen", "h"].contains (asciiLower (pyStrip alliance)) then
      (update_house_alliance houses house (some HARKONNEN) user now, true)
    else (houses, false)

theorem claim_preserves_valid_alliance (hs : List House) (n : String)
    (a : Option String) (u : String) (t : Nat)
    (ha : valid_alliance a = true)
    (hpre : hs.all (fun h => valid_alliance h.alliance) = true) :
    (claim_house_for_alliance hs n a u t).all
      (fun h => valid_alliance h.alliance) = true := by
  simp only [claim_house_for_alliance, List.all_eq_true, List.mem_map] at *
  rintro x ⟨h, hh, rfl⟩
  by_cases hm : nameMatches h n = true
  · simpa [hm] using ha
  · simp only [Bool.not_eq_true] at hm
    simpa [hm] using hpre h hh

theorem update_alliance_preserves_valid (hs : List House) (n : String)
    (a : Option String) (u : String) (t : Nat)
    (ha : valid_alliance a = true)
    (hpre : hs.all (fun h => valid_alliance h.alliance) = true) :
    (update_house_alliance hs n a u t).all
      (fun h => valid_alliance h.alliance) = true := by
  simp only [update_house_alliance, List.all_eq_true, List.mem_map] at *
  rintro x ⟨h, hh, rfl⟩
  by_cases hm : nameMatches h n = true
  · simpa [hm] using ha
  · simp only [Bool.not_eq_true] at hm
    simpa [hm] using hpre h hh

/-- C10: the two slash commands and the button constants only ever write
an alliance drawn from {absent, Atreides, Harkonnen}: both commands
preserve the closed-vocabulary invariant, an out-of-vocabulary faction
argument leaves the table untouched, and the button paths (which pass
one of the two constants or null) preserve it as well. -/
theorem alliance_closed_set_preserved (hs : List House)
    (house faction al user : String) (now : Nat) (a : Option String)
    (hpre : hs.all (fun h => valid_alliance h.alliance) = true)
    (ha : valid_alliance a = true) :
    ((slash_claim_house hs house faction user now).1.all
        (fun h => valid_alliance h.alliance) = true)
    ∧ ((slash_set_alliance hs house al user now).1.all
        (fun h => valid_alliance h.alliance) = true)
    ∧ ((claim_house_for_alliance hs house a user now).all
        (fun h => valid_alliance h.alliance) = true)
    ∧ ((["atreides", "harkonnen", "a", "h"].contains
          (asciiLower (pyStrip faction))) = false →
        slash_claim_house hs house faction user now = (hs, false))
    ∧ ((["none", "null", "clear", ""].contains (asciiLower (pyStrip al))) = false →
       (["atreides", "a"].contains (asciiLower (pyStrip al))) = false →
       (["harkonnen", "h"].contains (asciiLower (pyStrip al))) = false →
        slash_set_alliance hs house al user now = (hs, false)) := by
  refine ⟨?_, ?_, claim_preserves_valid_alliance hs house a user now ha hpre,
      ?_, ?_⟩
  · unfold slash_claim_house
    by_cases hf : (["atreides", "harkonnen", "a", "h"].contains
        (asciiLower (pyStrip faction))) = true
    · rw [hf]
      simp only [Bool.not_true, Bool.false_eq_true, if_false]
      cases hg : get_house_data hs house with
      | none => exact hpre
      | some h =>
        refine claim_preserves_valid_alliance hs house _ user now ?_ hpre
        by_cases h2 : (["atreides", "a"].contains
            (asciiLower (pyStrip faction))) = true
        · rw [h2]
          decide
        · rw [Bool.not_eq_true] at h2
          rw [h2]
          decide
    · rw [Bool.not_eq_true] at hf
      rw [hf]
      exact hpre
  · unfold slash_set_alliance
    cases hg : get_house_data hs house with
    | none => exact hpre
    | some h =>
      by_cases h1 : (["none", "null", "clear", ""].contains
          (asciiLower (pyStrip al))) = true
      · rw [h1]
        simp only [if_true]
        exact update_alliance_preserves_valid hs house none user now rfl hpre
      · rw [Bool.not_eq_true] at h1
        rw [h1]
        by_cases h2 : (["atreides", "a"].contains (asciiLower (pyStrip al))) = true
        · rw [h2]
          simp only [Bool.false_eq_true, if_false, if_true]
          exact update_alliance_preserves_valid hs house (some ATREIDES)
            user now (by decide) hpre
        · rw [Bool.not_eq_true] at h2
          rw [h2]
          by_cases h3 : (["harkonnen", "h"].contains
              (asciiLower (pyStrip al))) = true
          · rw [h3]
            simp only [Bool.false_eq_true, if_false, if_true]
            exact update_alliance_preserves_valid hs house (some HARKONNEN)
              user now (by decide) hpre
          · rw [Bool.not_eq_true] at h3
            rw [h3]
            exact hpre
  · intro hf
    unfold slash_claim_house
    rw [hf]
    rfl
  · intro h1 h2 h3
    unfold slash_set_alliance
    cases hg : get_house_data hs house with
    | none => rfl
    | some h =>
      rw [h1, h2, h3]
      rfl

/-- Witness for `alliance_closed_set_preserved` at a concrete table. -/
theorem alliance_closed_set_preserved_witness :
    ([sampleHouse "Alexin"].all (fun h => valid_alliance h.alliance) = true)
    ∧ (valid_alliance (some ATREIDES) = true)
    ∧ (((slash_claim_house [sampleHouse "Alexin"] "alexin" "Atreides" "u" 3).1.all
        (fun h => valid_alliance h.alliance) = true)
      ∧ ((slash_set_alliance [sampleHouse "Alexin"] "alexin" "none" "u" 3).1.all
          (fun h => valid_alliance h.alliance) = true)
      ∧ ((claim_house_for_alliance [sampleHouse "Alexin"] "alexin"
            (some ATREIDES) "u" 3).all
          (fun h => valid_alliance h.alliance) = true)
      ∧ ((["atreides", "harkonnen", "a", "h"].contains
            (asciiLower (pyStrip "Atreides"))) = false →
          slash_claim_house [sampleHouse "Alexin"] "alexin" "Atreides" "u" 3
            = ([sampleHouse "Alexin"], false))
      ∧ ((["none", "null", "clear", ""].contains (asciiLower (pyStrip "none"))) = false →
         (["atreides", "a"].contains (asciiLower (pyStrip "none"))) = false →
         (["harkonnen", "h"].contains (asciiLower (pyStrip "none"))) = false →
          slash_set_alliance [sampleHouse "Alexin"] "alexin" "none" "u" 3
            = ([sampleHouse "Alexin"], false))) :=
  ⟨by decide, by decide,
   alliance_closed_set_preserved [sampleHouse "Alexin"] "alexin" "Atreides"
     "none" "u" 3 (some ATREIDES) (by decide) (by decide)⟩

end Landsraad

namespace Landsraad

/-- Parse a non-empty run of decimal digits, accumulator style. -/
def parseNatDigits : List Char → Nat → Option Nat
  | [], acc => some acc
  | c :: cs, acc =>
    if '0' ≤ c ∧ c ≤ '9' then parseNatDigits cs (acc * 10 + (c.toNat - 48))
    else none

/-- Python's `int()` on an already-stripped string: an optional sign
followed by at least one decimal digit; anything else raises ValueError,
modelled as `none`. -/
def pyParseInt (s : String) : Option Int :=
  match s.data with
  | [] => none
  | '-' :: [] => none
  | '-' :: cs => (parseNatDigits cs 0).map fun n => -(n : Int)
  | '+' :: [] => none
  | '+' :: cs => (parseNatDigits cs 0).map fun n => (n : Int)
  | cs => (parseNatDigits cs 0).map fun n => (n : Int)

/-- Outcome reported to the user by the unlock modal. -/
inductive UnlockOutcome where
  | ok
  | invalid_ppd
deriving DecidableEq, Repr

/-- `UnlockHouseModal.on_submit` (source lines 690-721): parse the
points-per-delivery field with `int()`; a ValueError reports an error
with nothing mutated; otherwise clear the lock and set quest and
points-per-delivery through `update_house_data`, in that order. -/
def unlock_on_submit (houses : List House)
    (house_name quest_input ppd_input user : String) (now : Nat) :
    List House × UnlockOutcome :=
  match pyParseInt (pyStrip ppd_input) with
  | none => (houses, .invalid_ppd)
  | some ppd =>
    (update_house_ppd
      (update_house_quest
        (update_house_locked houses house_name false user now)
        house_name (pyStrip quest_input) user now)
      house_name ppd user now, .ok)

/-- C5 counterexample: the input "0" is an integer but not a positive
one; the claim says unlock must fail, yet the code reports success and
writes `points_per_delivery = 0` with the house unlocked. -/
theorem unlock_nonpositive_ppd_counterexample :
    unlock_on_submit [sampleHouse "Alexin"] "Alexin" "Deliver spice" "0" "u" 4
      = ([{ sampleHouse "Alexin" with
              is_locked := false,
              quest := "Deliver spice",
              points_per_delivery := 0,
              last_updated := 4,
              updated_by := "u" }], UnlockOutcome.ok) := by
  rfl

/-- C5 (amended): unlock fails — reporting an error and leaving every
house unchanged — exactly when the points-per-delivery input does not
parse as an integer; when it parses to any integer (zero and negative
included) the matching house is unlocked with quest and
points-per-delivery set and stamps updated, every other row untouched. -/
theorem unlock_behaviour (houses : List House) (hn q p u : String) (now : Nat) :
    (pyParseInt (pyStrip p) = none →
      unlock_on_submit houses hn q p u now = (houses, UnlockOutcome.invalid_ppd))
    ∧ (∀ v, pyParseInt (pyStrip p) = some v →
        unlock_on_submit houses hn q p u now = (houses.map (fun h =>
          if nameMatches h hn then
            { h with is_locked := false, quest := pyStrip q,
                     points_per_delivery := v, last_updated := now,
                     updated_by := u }
          else h), UnlockOutcome.ok)) := by
  constructor
  · intro hnone
    unfold unlock_on_submit
    rw [hnone]
  · intro v hv
    unfold unlock_on_submit
    rw [hv]
    simp only [Prod.mk.injEq, and_true]
    simp only [update_house_ppd, update_house_quest, update_house_locked,
      List.map_map]
    apply List.map_congr_left
    intro h _
    by_cases hm : nameMatches h hn = true
    · have hm2 : nameMatches
          { h with is_locked := false, last_updated := now, updated_by := u }
          hn = true := hm
      have hm3 : nameMatches
          { h with is_locked := false, quest := pyStrip q,
                   last_updated := now, updated_by := u } hn = true := hm
      simp only [Function.comp_apply, hm, hm2, hm3, if_true]
    · rw [Bool.not_eq_true] at hm
      have hm2 : nameMatches
          { h with is_locked := false, last_updated := now, updated_by := u }
          hn = false := hm
      have hm3 : nameMatches
          { h with is_locked := false, quest := pyStrip q,
                   last_updated := now, updated_by := u } hn = false := hm
      simp only [Function.comp_apply, hm, hm2, hm3, Bool.false_eq_true, if_false]

/-- Witness for `unlock_behaviour`: a non-numeric input fails without
mutation; the integer input "-3" succeeds. -/
theorem unlock_behaviour_witness :
    unlock_on_submit [sampleHouse "Ecaz"] "ecaz" "q" "abc" "u" 9
        = ([sampleHouse "Ecaz"], UnlockOutcome.invalid_ppd)
    ∧ unlock_on_submit [sampleHouse "Ecaz"] "ecaz" "q" " -3 " "u" 9
        = ([sampleHouse "Ecaz"].map (fun h =>
            if nameMatches h "ecaz" then
              { h with is_locked := false, quest := pyStrip "q",
                       points_per_delivery := -3, last_updated := 9,
                       updated_by := "u" }
            else h), UnlockOutcome.ok) :=
  ⟨(unlock_behaviour [sampleHouse "Ecaz"] "ecaz" "q" "abc" "u" 9).1 (by decide),
   (unlock_behaviour [sampleHouse "Ecaz"] "ecaz" "q" " -3 " "u" 9).2 (-3)
     (by decide)⟩

end Landsraad

namespace Landsraad

/-- The turns computation displayed by `create_house_info_embed`
(source line 853): `max(1, -(-max(0, goal - current) // ppd))` when
`ppd > 0`, otherwise the infinity marker (`none`).  Python `//` is
floor division, i.e. `Int.fdiv`. -/
def turns_needed (current goal ppd : Int) : Option Int :=
  if 0 < ppd then some (max 1 (-(Int.fdiv (-(max 0 (goal - current))) ppd)))
  else none

/-- The turns formula as the SPEC words it:
`ceil(max(0, goal - progress) / pointsPerDelivery)`, with no lower
clamp; exists to be compared against the code's computation. -/
def spec_turns_needed (current goal ppd : Int) : Option Int :=
  if 0 < ppd then some (-(Int.fdiv (-(max 0 (goal - current))) ppd))
  else none

/-- C6 counterexample: at progress = goal (remaining 0) with ppd = 23
the display shows 1 turn, while the claimed ceiling formula gives 0. -/
theorem turns_needed_counterexample :
    turns_needed 70000 70000 23 = some 1
    ∧ spec_turns_needed 70000 70000 23 = some 0 := by
  constructor <;> rfl

/-- C6 (amended): with a positive points-per-delivery the displayed
turns value is `max 1 q` where `q` is the ceiling of
remaining / pointsPerDelivery (characterised by its defining bounds);
with a non-positive points-per-delivery the display is the infinity
marker. -/
theorem turns_needed_amended (current goal ppd ppd2 : Int)
    (hp : 0 < ppd) (hp2 : ppd2 ≤ 0) :
    (∃ q : Int, turns_needed current goal ppd = some (max 1 q)
      ∧ ppd * (q - 1) < max 0 (goal - current)
      ∧ max 0 (goal - current) ≤ ppd * q)
    ∧ turns_needed current goal ppd2 = none := by
  constructor
  · refine ⟨-(Int.fdiv (-(max 0 (goal - current))) ppd), ?_, ?_, ?_⟩
    · unfold turns_needed
      rw [if_pos hp]
    · rw [Int.fdiv_eq_ediv _ (le_of_lt hp)]
      have h1 : -(max 0 (goal - current)) <
          (-(max 0 (goal - current)) / ppd + 1) * ppd :=
        Int.lt_ediv_add_one_mul_self _ hp
      nlinarith [h1]
    · rw [Int.fdiv_eq_ediv _ (le_of_lt hp)]
      have h2 : -(max 0 (goal - current)) / ppd * ppd ≤ -(max 0 (goal - current)) :=
        Int.ediv_mul_le _ (ne_of_gt hp)
      nlinarith [h2]
  · unfold turns_needed
    rw [if_neg (by omega)]

/-- Witness for `turns_needed_amended` at remaining = 100, ppd = 23
(where the display is 5) and at ppd = 0 (where it is the infinity
marker). -/
theorem turns_needed_amended_witness :
    ((0:Int) < 23) ∧ ((0:Int) ≤ 0)
    ∧ ((∃ q : Int, turns_needed 0 100 23 = some (max 1 q)
          ∧ 23 * (q - 1) < max 0 ((100:Int) - 0)
          ∧ max 0 ((100:Int) - 0) ≤ 23 * q)
        ∧ turns_needed 0 100 0 = none)
    ∧ turns_needed 0 100 23 = some 5 :=
  ⟨by decide, le_refl 0,
   turns_needed_amended 0 100 23 0 (by decide) (le_refl 0), by decide⟩

end Landsraad

namespace Landsraad

/-- Python `int()` truncation toward zero on an exact rational. -/
def pyTruncRat (q : ℚ) : Int := if q < 0 then -(Int.floor (-q)) else Int.floor q

/-- The rendering-relevant content of the bar string built by
`create_progress_bar`: filled cells, empty cells, and the exact
percentage printed after the bar. -/
structure ProgressBar where
  filled : Int
  empty : Int
  percentage : ℚ
deriving DecidableEq, Repr

/-- `create_progress_bar` (source lines 875-882).  The Python floats
compute exactly these rationals on every input in play. -/
def create_progress_bar (current max_val : Int) : ProgressBar :=
  if max_val ≤ 0 then { filled := 0, empty := 20, percentage := 0 }
  else
    { filled := pyTruncRat
        (min 100 ((current : ℚ) / (max_val : ℚ) * 100) / 5),
      empty := 20 - pyTruncRat
        (min 100 ((current : ℚ) / (max_val : ℚ) * 100) / 5),
      percentage := min 100 ((current : ℚ) / (max_val : ℚ) * 100) }

/-- The percentage shown in the detail view's status line
(`create_house_info_embed`, source line 831): guarded by `goal > 0`. -/
def detail_progress_pct (current goal : Int) : ℚ :=
  if 0 < goal then (current : ℚ) / (goal : ℚ) * 100 else 0

/-- Python truthiness of an optional string column (`elif alliance:`). -/
def pyTruthy (o : Option String) : Bool := !(o.getD "" == "")

/-- What the export writes into the "Progress %" column. -/
inductive ExportPct where
  | na
  | completed
  | val (q : ℚ)
deriving DecidableEq, Repr

/-- The per-row status/percentage computation of `slash_export_data`
(source lines 2482-2493); `Except.error ()` is Python's
ZeroDivisionError escaping from `(current/goal)*100`. -/
def export_progress_pct (h : House) : Except Unit ExportPct :=
  if h.is_locked then .ok .na
  else if pyTruthy h.alliance then
    (if h.goal = 0 then .error ()
     else .ok (.val ((h.current_goal : ℚ) / (h.goal : ℚ) * 100)))
  else if h.goal ≤ h.current_goal then .ok .completed
  else if h.goal = 0 then .error ()
  else .ok (.val ((h.current_goal : ℚ) / (h.goal : ℚ) * 100))

/-- C7 counterexample: an unlocked house claimed by Atreides with
goal = 0 makes the export's percentage computation divide by zero — the
claim said no rendering path divides by zero. -/
theorem export_pct_div_by_zero_counterexample :
    export_progress_pct { sampleHouse "Ecaz" with
        is_locked := false, alliance := some ATREIDES,
        current_goal := 0, goal := 0 }
      = Except.error () := by
  rfl

/-- C7 (amended): the progress bar and the detail view guard
`goal ≤ 0` (bar `0.0%` with 0 filled / 20 empty, detail percentage 0),
and 35000 of 70000 renders 50.0% with 10 filled and 10 empty cells —
but the export's claimed/in-progress branches divide by `goal`
unguarded and raise ZeroDivisionError when a claimed unlocked house has
goal = 0. -/
theorem progress_pct_guarded_amended (c g : Int) (hg : g ≤ 0) :
    create_progress_bar c g = { filled := 0, empty := 20, percentage := 0 }
    ∧ detail_progress_pct c g = 0
    ∧ create_progress_bar 35000 70000
        = { filled := 10, empty := 10, percentage := 50 }
    ∧ create_progress_bar 0 0 = { filled := 0, empty := 20, percentage := 0 }
    ∧ export_progress_pct { sampleHouse "Ecaz" with
        is_locked := false, alliance := some ATREIDES,
        current_goal := 0, goal := 0 } = Except.error () := by
  have hbar : create_progress_bar 35000 70000
      = { filled := 10, empty := 10, percentage := 50 } := by
    unfold create_progress_bar
    rw [if_neg (by omega)]
    have hpct : min (100:ℚ) (((35000:Int) : ℚ) / ((70000:Int) : ℚ) * 100)
        = 50 := by
      rw [min_eq_right] <;> norm_num
    rw [hpct]
    have hfill : pyTruncRat ((50:ℚ) / 5) = 10 := by
      unfold pyTruncRat
      rw [if_neg (by norm_num)]
      rw [show ((50:ℚ) / 5) = ((10:Int) : ℚ) by norm_num, Int.floor_intCast]
    rw [hfill]
    norm_num
  refine ⟨?_, ?_, hbar, ?_, by rfl⟩
  · unfold create_progress_bar
    rw [if_pos hg]
  · unfold detail_progress_pct
    rw [if_neg (by omega)]
  · unfold create_progress_bar
    rw [if_pos (le_refl 0)]

/-- Witness for `progress_pct_guarded_amended` at goal = -1. -/
theorem progress_pct_guarded_amended_witness :
    ((-1:Int) ≤ 0)
    ∧ (create_progress_bar 5 (-1) = { filled := 0, empty := 20, percentage := 0 }
    ∧ detail_progress_pct 5 (-1) = 0
    ∧ create_progress_bar 35000 70000
        = { filled := 10, empty := 10, percentage := 50 }
    ∧ create_progress_bar 0 0 = { filled := 0, empty := 20, percentage := 0 }
    ∧ export_progress_pct { sampleHouse "Ecaz" with
        is_locked := false, alliance := some ATREIDES,
        current_goal := 0, goal := 0 } = Except.error ()) :=
  ⟨by decide, progress_pct_guarded_amended 5 (-1) (by decide)⟩

end Landsraad

namespace Landsraad

/-- A PST wall-clock instant, as minutes since a reference Monday 00:00.
The source's `timedelta` addition and `replace` never renormalise the
UTC offset, so a fixed-offset timeline is the faithful model. -/
structure PSTTime where
  minutes : Nat
deriving DecidableEq, Repr

/-- `datetime.weekday()`: 0 = Monday ... 6 = Sunday. -/
def PSTTime.weekday (d : PSTTime) : Nat := (d.minutes / 1440) % 7

/-- `datetime.replace(hour=h, minute=m, second=0, microsecond=0)`. -/
def PSTTime.replaceTime (d : PSTTime) (h m : Nat) : PSTTime :=
  ⟨(d.minutes / 1440) * 1440 + h * 60 + m⟩

/-- `get_next_weekday` (source lines 390-415): compute `days_ahead` from
the target weekday (adding 7 when the target already passed this week,
the today-with-time-passed-or-equal case included), add that many days,
and set the wall-clock time. -/
def get_next_weekday (now : PSTTime) (tw th tm : Nat) : PSTTime :=
  PSTTime.replaceTime
    ⟨now.minutes +
      (if tw < now.weekday then tw + 7 - now.weekday
       else if tw = now.weekday then
         (if (now.replaceTime th tm).minutes ≤ now.minutes then 7 else 0)
       else tw - now.weekday) * 1440⟩
    th tm

/-- The five event instants of `calculate_schedule_events`
(source lines 417-440). -/
structure ScheduleEvents where
  coriolis_start : PSTTime
  coriolis_end : PSTTime
  landsraad_new_term : PSTTime
  voting_start : PSTTime
  voting_end : PSTTime
deriving DecidableEq, Repr

/-- `calculate_schedule_events`: storm start at next Monday 17:00, end
10 hours later, new term at storm end, voting Saturday 18:00 for 24 h. -/
def calculate_schedule_events (now : PSTTime) : ScheduleEvents :=
  { coriolis_start := get_next_weekday now 0 17 0,
    coriolis_end := ⟨(get_next_weekday now 0 17 0).minutes + 600⟩,
    landsraad_new_term := ⟨(get_next_weekday now 0 17 0).minutes + 600⟩,
    voting_start := get_next_weekday now 5 18 0,
    voting_end := ⟨(get_next_weekday now 5 18 0).minutes + 1440⟩ }

/-- This week's occurrence of the given weekday and time — the reference
point of the spec's "already passed this week" rule. -/
def thisWeekOccurrence (now : PSTTime) (tw th tm : Nat) : PSTTime :=
  ⟨(now.minutes / 1440 - now.weekday + tw) * 1440 + th * 60 + tm⟩

/-- C8: the next-occurrence computation rolls forward 7 days exactly
when this week's occurrence is at or before now, and returns this
week's occurrence otherwise; storm end is always storm start plus 10
hours and the new term starts at storm end (voting end likewise is
voting start plus 24 hours).  Concretely, from Wednesday 10:00 the next
storm start is the coming Monday 17:00 (5 days ahead), and from Monday
17:00 exactly it is the following Monday 17:00. -/
theorem schedule_next_occurrence (now : PSTTime) (tw th tm : Nat)
    (htw : tw < 7) (hth : th * 60 + tm < 1440) :
    (((thisWeekOccurrence now tw th tm).minutes ≤ now.minutes →
        (get_next_weekday now tw th tm).minutes
          = (thisWeekOccurrence now tw th tm).minutes + 7 * 1440)
      ∧ (now.minutes < (thisWeekOccurrence now tw th tm).minutes →
        (get_next_weekday now tw th tm).minutes
          = (thisWeekOccurrence now tw th tm).minutes))
    ∧ ((calculate_schedule_events now).coriolis_end.minutes
        = (calculate_schedule_events now).coriolis_start.minutes + 600)
    ∧ ((calculate_schedule_events now).landsraad_new_term
        = (calculate_schedule_events now).coriolis_end)
    ∧ ((calculate_schedule_events now).voting_end.minutes
        = (calculate_schedule_events now).voting_start.minutes + 1440)
    ∧ (calculate_schedule_events ⟨2 * 1440 + 600⟩).coriolis_start
        = ⟨7 * 1440 + 17 * 60⟩
    ∧ (calculate_schedule_events ⟨17 * 60⟩).coriolis_start
        = ⟨7 * 1440 + 17 * 60⟩ := by
  refine ⟨⟨?_, ?_⟩, rfl, rfl, rfl, by rfl, by rfl⟩
  · intro hle
    unfold get_next_weekday PSTTime.replaceTime at *
    unfold thisWeekOccurrence PSTTime.weekday at *
    simp only at *
    split_ifs with h1 h2 h3 <;> omega
  · intro hlt
    unfold get_next_weekday PSTTime.replaceTime at *
    unfold thisWeekOccurrence PSTTime.weekday at *
    simp only at *
    split_ifs with h1 h2 h3 <;> omega

/-- Witness for `schedule_next_occurrence` at Wednesday 10:00. -/
theorem schedule_next_occurrence_witness :
    (0 < 7 ∧ 17 * 60 + 0 < 1440)
    ∧ ((((thisWeekOccurrence ⟨2 * 1440 + 600⟩ 0 17 0).minutes ≤ 2 * 1440 + 600 →
        (get_next_weekday ⟨2 * 1440 + 600⟩ 0 17 0).minutes
          = (thisWeekOccurrence ⟨2 * 1440 + 600⟩ 0 17 0).minutes + 7 * 1440)
      ∧ (2 * 1440 + 600 < (thisWeekOccurrence ⟨2 * 1440 + 600⟩ 0 17 0).minutes →
        (get_next_weekday ⟨2 * 1440 + 600⟩ 0 17 0).minutes
          = (thisWeekOccurrence ⟨2 * 1440 + 600⟩ 0 17 0).minutes))
    ∧ ((calculate_schedule_events ⟨2 * 1440 + 600⟩).coriolis_end.minutes
        = (calculate_schedule_events ⟨2 * 1440 + 600⟩).coriolis_start.minutes + 600)
    ∧ ((calculate_schedule_events ⟨2 * 1440 + 600⟩).landsraad_new_term
        = (calculate_schedule_events ⟨2 * 1440 + 600⟩).coriolis_end)
    ∧ ((calculate_schedule_events ⟨2 * 1440 + 600⟩).voting_end.minutes
        = (calculate_schedule_events ⟨2 * 1440 + 600⟩).voting_start.minutes + 1440)
    ∧ (calculate_schedule_events ⟨2 * 1440 + 600⟩).coriolis_start
        = ⟨7 * 1440 + 17 * 60⟩
    ∧ (calculate_schedule_events ⟨17 * 60⟩).coriolis_start
        = ⟨7 * 1440 + 17 * 60⟩) :=
  ⟨⟨by decide, by decide⟩,
   schedule_next_occurrence ⟨2 * 1440 + 600⟩ 0 17 0 (by decide) (by decide)⟩

end Landsraad

namespace Landsraad

/-- One row of `deep_desert_sectors` (survey-relevant columns; schema at
source lines 224-233). -/
structure Sector where
  sector_id : String
  survey_status : String
  surveyed_by : Option String
deriving DecidableEq, Repr

/-- One row of `guild_bases` (columns set by the two insert paths;
schema at source lines 237-251). -/
structure GuildBase where
  guild_name : String
  sector_id : String
  coordinates : Option String
  base_type : Option String
  alliance : Option String
  discovered_by : String
  is_active : Bool
  notes : Option String
deriving DecidableEq, Repr

/-- One row of `spice_locations` (schema at source lines 253-269). -/
structure SpiceLocation where
  sector_id : String
  spice_type : String
  size : Option String
  discovered_by : String
  notes : Option String
  is_depleted : Bool
deriving DecidableEq, Repr

/-- One row of `landsraad_points` (schema at source lines 271-286). -/
structure LandsraadPoint where
  sector_id : String
  point_name : Option String
  discovered_by : String
  tier : Int
deriving DecidableEq, Repr

/-- One row of `resource_locations` (schema at source lines 288-304). -/
structure ResourceLocation where
  sector_id : String
  resource_type : String
  concentration : Option String
  discovered_by : String
  is_exhausted : Bool
deriving DecidableEq, Repr

/-- The sector grid and the four point-of-interest tables. -/
structure MapState where
  sectors : List Sector
  guild_bases : List GuildBase
  spice_locations : List SpiceLocation
  landsraad_points : List LandsraadPoint
  resource_locations : List ResourceLocation
deriving DecidableEq, Repr

/-- The per-row effect of the survey-status CASE UPDATE in
`slash_quickadd` (source lines 2655-2662): `unsurveyed` becomes
`partial`, anything else stays. -/
def ratchet_row (sid : String) (s : Sector) : Sector :=
  if s.sector_id == sid then
    (if s.survey_status == "unsurveyed" then { s with survey_status := "partial" }
     else s)
  else s

/-- The full survey-status UPDATE of `slash_quickadd`. -/
def ratchet_sector (sectors : List Sector) (sid : String) : List Sector :=
  sectors.map (ratchet_row sid)

/-- The sector-id validation of `slash_quickadd` (source line 2618):
length 2, first character in A-I, second in 1-9. -/
def valid_sector_id (s : String) : Bool :=
  match s.data with
  | [c1, c2] => ("ABCDEFGHI".data.contains c1) && ("123456789".data.contains c2)
  | _ => false

/-- `slash_quickadd` (source lines 2606-2670): upper-case the sector id,
lower-case the type, validate both (rejecting without mutation), insert
one POI row of the chosen variant with its literal column values, then
run the survey-status ratchet UPDATE on that sector. -/
def slash_quickadd (st : MapState) (sector location_type name user : String) :
    MapState × Bool :=
  if !(valid_sector_id (asciiUpper sector)) then (st, false)
  else if !(["base", "spice", "landsraad", "resource"].contains
      (asciiLower location_type)) then (st, false)
  else if asciiLower location_type == "base" then
    ({ st with
        guild_bases := st.guild_bases ++
          [{ guild_name := name, sector_id := asciiUpper sector,
             coordinates := none, base_type := some "unknown",
             alliance := none, discovered_by := user, is_active := true,
             notes := none }],
        sectors := ratchet_sector st.sectors (asciiUpper sector) }, true)
  else if asciiLower location_type == "spice" then
    ({ st with
        spice_locations := st.spice_locations ++
          [{ sector_id := asciiUpper sector, spice_type := "unknown",
             size := some "unknown", discovered_by := user,
             notes := some name, is_depleted := false }],
        sectors := ratchet_sector st.sectors (asciiUpper sector) }, true)
  else if asciiLower location_type == "landsraad" then
    ({ st with
        landsraad_points := st.landsraad_points ++
          [{ sector_id := asciiUpper sector, point_name := some name,
             discovered_by := user, tier := 1 }],
        sectors := ratchet_sector st.sectors (asciiUpper sector) }, true)
  else
    ({ st with
        resource_locations := st.resource_locations ++
          [{ sector_id := asciiUpper sector, resource_type := name,
             concentration := some "unknown", discovered_by := user,
             is_exhausted := false }],
        sectors := ratchet_sector st.sectors (asciiUpper sector) }, true)

/-- `AddGuildBaseModal.on_submit` (source lines 1300-1325): insert one
guild-base row; empty optional fields become NULL; the sector table is
not touched. -/
def addGuildBaseModal_on_submit (st : MapState)
    (sector_id guild_name base_type alliance coordinates notes user : String) :
    MapState :=
  { st with
      guild_bases := st.guild_bases ++
        [{ guild_name := guild_name, sector_id := sector_id,
           base_type := some (asciiLower base_type),
           alliance := if alliance == "" then none else some alliance,
           coordinates := if coordinates == "" then none else some coordinates,
           discovered_by := user, is_active := true,
           notes := if notes == "" then none else some notes }] }

/-- C9 counterexample: adding a guild base through the modal to the
unsurveyed sector A1 leaves its survey status "unsurveyed" — the claim
said every point-of-interest add advances it to "partial". -/
theorem modal_add_no_ratchet_counterexample :
    (addGuildBaseModal_on_submit
        { sectors := [{ sector_id := "A1", survey_status := "unsurveyed",
                        surveyed_by := none }],
          guild_bases := [], spice_locations := [], landsraad_points := [],
          resource_locations := [] }
        "A1" "CBM" "main" "" "" "" "u").sectors
      = [{ sector_id := "A1", survey_status := "unsurveyed",
           surveyed_by := none }]
    ∧ ("unsurveyed" : String) ≠ "partial" := by
  exact ⟨rfl, by decide⟩

/-- C9 (amended): the `/quickadd` path (every one of the four variants)
runs the ratchet — an unsurveyed target sector becomes partial, a
complete one stays complete, other sectors are untouched — while the
modal-based guild-base add leaves every sector's survey status
unchanged. -/
theorem quickadd_survey_ratchet (st : MapState)
    (sector lt name user sid2 g b al co no : String)
    (hv : valid_sector_id (asciiUpper sector) = true)
    (hlt : ["base", "spice", "landsraad", "resource"].contains
      (asciiLower lt) = true) :
    ((slash_quickadd st sector lt name user).1.sectors
        = ratchet_sector st.sectors (asciiUpper sector))
    ∧ ((slash_quickadd st sector lt name user).2 = true)
    ∧ (∀ s : Sector, s.sector_id = asciiUpper sector →
        (s.survey_status = "unsurveyed" →
          (ratchet_row (asciiUpper sector) s).survey_status = "partial")
        ∧ (s.survey_status = "complete" →
          (ratchet_row (asciiUpper sector) s).survey_status = "complete"))
    ∧ (∀ s : Sector, s.sector_id ≠ asciiUpper sector →
        ratchet_row (asciiUpper sector) s = s)
    ∧ ((addGuildBaseModal_on_submit st sid2 g b al co no user).sectors
        = st.sectors) := by
  refine ⟨?_, ?_, ?_, ?_, rfl⟩
  · unfold slash_quickadd
    rw [hv, hlt]
    by_cases h1 : (asciiLower lt == "base") = true
    · rw [h1]
      rfl
    · rw [Bool.not_eq_true] at h1
      rw [h1]
      by_cases h2 : (asciiLower lt == "spice") = true
      · rw [h2]
        rfl
      · rw [Bool.not_eq_true] at h2
        rw [h2]
        by_cases h3 : (asciiLower lt == "landsraad") = true
        · rw [h3]
          rfl
        · rw [Bool.not_eq_true] at h3
          rw [h3]
          rfl
  · unfold slash_quickadd
    rw [hv, hlt]
    by_cases h1 : (asciiLower lt == "base") = true
    · rw [h1]
      rfl
    · rw [Bool.not_eq_true] at h1
      rw [h1]
      by_cases h2 : (asciiLower lt == "spice") = true
      · rw [h2]
        rfl
      · rw [Bool.not_eq_true] at h2
        rw [h2]
        by_cases h3 : (asciiLower lt == "landsraad") = true
        · rw [h3]
          rfl
        · rw [Bool.not_eq_true] at h3
          rw [h3]
          rfl
  · intro s hsid
    constructor
    · intro hst
      unfold ratchet_row
      rw [if_pos (by simp [hsid]), if_pos (by simp [hst])]
    · intro hst
      unfold ratchet_row
      rw [if_pos (by simp [hsid]), if_neg (by simp [hst])]
      exact hst
  · intro s hsid
    unfold ratchet_row
    rw [if_neg (by simp [hsid])]

/-- Witness for `quickadd_survey_ratchet` on a two-sector grid. -/
theorem quickadd_survey_ratchet_witness :
    (valid_sector_id (asciiUpper "a1") = true
      ∧ ["base", "spice", "landsraad", "resource"].contains
          (asciiLower "Base") = true)
    ∧ (let st0 : MapState :=
        { sectors := [{ sector_id := "A1", survey_status := "unsurveyed",
                        surveyed_by := none },
                      { sector_id := "B2", survey_status := "complete",
                        surveyed_by := some "u" }],
          guild_bases := [], spice_locations := [], landsraad_points := [],
          resource_locations := [] }
       ((slash_quickadd st0 "a1" "Base" "CBM" "u").1.sectors
          = ratchet_sector st0.sectors (asciiUpper "a1"))
        ∧ ((slash_quickadd st0 "a1" "Base" "CBM" "u").2 = true)
        ∧ (∀ s : Sector, s.sector_id = asciiUpper "a1" →
            (s.survey_status = "unsurveyed" →
              (ratchet_row (asciiUpper "a1") s).survey_status = "partial")
            ∧ (s.survey_status = "complete" →
              (ratchet_row (asciiUpper "a1") s).survey_status = "complete"))
        ∧ (∀ s : Sector, s.sector_id ≠ asciiUpper "a1" →
            ratchet_row (asciiUpper "a1") s = s)
        ∧ ((addGuildBaseModal_on_submit st0 "A1" "CBM" "main" "" "" "" "u").sectors
            = st0.sectors)) :=
  ⟨⟨by decide, by decide⟩,
   quickadd_survey_ratchet _ "a1" "Base" "CBM" "u" "A1" "CBM" "main" "" "" ""
     (by decide) (by decide)⟩

end Landsraad
